import Mathlib

/-!
Verification of the agent-behavior core of `supamamans/game`.

The development shallowly embeds the TypeScript sources in Lean:
* `src/entities/MoodVector.ts` (unnamed part_010) — the six-scalar emotional
  state, its per-second update, and the bounded `apply` mutation entry point;
* `src/entities/ChildAI.ts` — utility action selectors and the five-regime
  behavior machine built on the generic `StateMachine`;
* `src/core/StateMachine.ts` (unnamed part_002) — the generic HFSM engine;
* `src/systems/EmergencySystem.ts` (`ChildInteraction`) — pairwise
  inter-agent rules and the contagious-cry listener.

JavaScript numbers are modelled as rationals (`ℚ`); every constant in the
source is an exact decimal, so all arithmetic here is exact.  Stateful
methods become pure functions from old state to new state; `EventBus.emit`
calls become an explicit list of emitted events returned alongside the new
state; `console.warn` becomes an explicit warning log.
-/

namespace Game

/-- `clamp` from `src/utils/MathUtils.ts`:
`Math.max(min, Math.min(max, value))`. -/
def clamp (value lo hi : ℚ) : ℚ := max lo (min hi value)

/-- `MoodValues` from MoodVector.ts: the six scalars. -/
structure MoodValues where
  hunger : ℚ
  boredom : ℚ
  fatigue : ℚ
  trust : ℚ
  mischief : ℚ
  comfort : ℚ
deriving DecidableEq, Repr

/-- `MoodDecayRates` from MoodVector.ts: per-second decay/growth rates. -/
structure MoodDecayRates where
  hungerGrowth : ℚ
  boredomGrowth : ℚ
  fatigueGrowth : ℚ
  trustDecay : ℚ
  mischiefGrowth : ℚ
  comfortDecay : ℚ
deriving DecidableEq, Repr

/-- `DEFAULT_RATES` from MoodVector.ts. -/
def DEFAULT_RATES : MoodDecayRates :=
  { hungerGrowth := 3/1000
    boredomGrowth := 5/1000
    fatigueGrowth := 2/1000
    trustDecay := 5/10000
    mischiefGrowth := 2/1000
    comfortDecay := 1/1000 }

/-- The constructor defaults of `MoodVector` (no `initial` argument). -/
def defaultMood : MoodValues :=
  { hunger := 2/10, boredom := 1/10, fatigue := 3/10
    trust := 5/10, mischief := 1/10, comfort := 8/10 }

/-- `get happiness()` from MoodVector.ts: the composite wellbeing score.
`mischief` does not appear. -/
def happiness (v : MoodValues) : ℚ :=
  (1 - v.hunger) * (25/100) +
  (1 - v.boredom) * (20/100) +
  (1 - v.fatigue) * (15/100) +
  v.trust * (20/100) +
  v.comfort * (20/100)

/-- `hasUrgentNeed(threshold)` from MoodVector.ts. -/
def hasUrgentNeed (v : MoodValues) (threshold : ℚ) : Bool :=
  decide (threshold < v.hunger) || decide (threshold < v.boredom) ||
  decide (threshold < v.fatigue) || decide (v.comfort < 1 - threshold) ||
  decide (threshold < v.mischief)

/-- `isCritical(threshold)` from MoodVector.ts (default threshold 0.85). -/
def isCritical (v : MoodValues) (threshold : ℚ) : Bool :=
  decide (threshold < v.hunger) || decide (threshold < v.fatigue) ||
  decide (v.trust < 1 - threshold)

/-- `get urgentNeed()`: the candidate list is sorted descending by value with
a stable sort and the first entry is returned, so the result is the first
listed candidate attaining the maximum.  We model the stable descending sort
head as a left fold that replaces the current best only on strictly greater
score. -/
def bestOf (l : List (String × ℚ)) (d : String) : String :=
  match l with
  | [] => d
  | x :: xs => (xs.foldl (fun b c => if b.2 < c.2 then c else b) x).1

/-- `get urgentNeed()` from MoodVector.ts. -/
def urgentNeed (v : MoodValues) : String :=
  bestOf
    [("hunger", v.hunger), ("boredom", v.boredom),
     ("fatigue", v.fatigue), ("comfort", 1 - v.comfort)]
    "hunger"

/-- Hunger line of `MoodVector.update`: grows only while awake, clamped. -/
def hungerStep (r : MoodDecayRates) (dt : ℚ) (isSleeping : Bool) (x : ℚ) : ℚ :=
  if isSleeping then x else clamp (x + r.hungerGrowth * dt) 0 1

/-- Boredom lines of `MoodVector.update`: while awake grows unless playing
(then shrinks at twice the growth rate); while asleep shrinks at 0.002/s. -/
def boredomStep (r : MoodDecayRates) (dt : ℚ) (isSleeping isPlaying : Bool) (x : ℚ) : ℚ :=
  if isSleeping then clamp (x - (2/1000) * dt) 0 1
  else if isPlaying then clamp (x - r.boredomGrowth * 2 * dt) 0 1
  else clamp (x + r.boredomGrowth * dt) 0 1

/-- Fatigue lines of `MoodVector.update`: grows awake, shrinks at 0.01/s asleep. -/
def fatigueStep (r : MoodDecayRates) (dt : ℚ) (isSleeping : Bool) (x : ℚ) : ℚ :=
  if isSleeping then clamp (x - (1/100) * dt) 0 1
  else clamp (x + r.fatigueGrowth * dt) 0 1

/-- Mischief lines of `MoodVector.update`.  The source mutates boredom and
fatigue in place before testing `v.boredom > 0.5 && v.fatigue < 0.7`, so the
branch reads the already-updated boredom/fatigue values (`newB`, `newF`). -/
def mischiefStep (r : MoodDecayRates) (dt : ℚ) (isSleeping : Bool) (newB newF x : ℚ) : ℚ :=
  if isSleeping then clamp (x - (3/1000) * dt) 0 1
  else if 1/2 < newB ∧ newF < 7/10 then clamp (x + r.mischiefGrowth * dt) 0 1
  else clamp (x - r.mischiefGrowth * (1/2) * dt) 0 1

/-- Trust line of `MoodVector.update`: decays only when not being held. -/
def trustStep (r : MoodDecayRates) (dt : ℚ) (isBeingHeld : Bool) (x : ℚ) : ℚ :=
  if isBeingHeld then x else clamp (x - r.trustDecay * dt) 0 1

/-- Comfort line of `MoodVector.update`: always decays. -/
def comfortStep (r : MoodDecayRates) (dt : ℚ) (x : ℚ) : ℚ :=
  clamp (x - r.comfortDecay * dt) 0 1

/-- `MoodVector.update(dt, isSleeping, isPlaying, isBeingHeld)`. -/
def moodUpdate (v : MoodValues) (r : MoodDecayRates) (dt : ℚ)
    (isSleeping isPlaying isBeingHeld : Bool) : MoodValues :=
  let b := boredomStep r dt isSleeping isPlaying v.boredom
  let f := fatigueStep r dt isSleeping v.fatigue
  { hunger := hungerStep r dt isSleeping v.hunger
    boredom := b
    fatigue := f
    trust := trustStep r dt isBeingHeld v.trust
    mischief := mischiefStep r dt isSleeping b f v.mischief
    comfort := comfortStep r dt v.comfort }

/-- A `Partial<MoodValues>` argument to `MoodVector.apply`: a delta may be
present or absent per field. -/
structure MoodDeltas where
  hunger : Option ℚ := none
  boredom : Option ℚ := none
  fatigue : Option ℚ := none
  trust : Option ℚ := none
  mischief : Option ℚ := none
  comfort : Option ℚ := none
deriving DecidableEq, Repr

/-- `MoodVector.apply(changes)`: each present delta is added and the result
clamped to [0,1]; absent fields are untouched.  Each key writes a distinct
field, so the `Object.entries` iteration order is immaterial. -/
def moodApply (v : MoodValues) (d : MoodDeltas) : MoodValues :=
  { hunger := match d.hunger with
      | some x => clamp (v.hunger + x) 0 1
      | none => v.hunger
    boredom := match d.boredom with
      | some x => clamp (v.boredom + x) 0 1
      | none => v.boredom
    fatigue := match d.fatigue with
      | some x => clamp (v.fatigue + x) 0 1
      | none => v.fatigue
    trust := match d.trust with
      | some x => clamp (v.trust + x) 0 1
      | none => v.trust
    mischief := match d.mischief with
      | some x => clamp (v.mischief + x) 0 1
      | none => v.mischief
    comfort := match d.comfort with
      | some x => clamp (v.comfort + x) 0 1
      | none => v.comfort }

/-- `MoodVector.play(amount)`:
`apply({ boredom: -amount, trust: 0.03, mischief: -0.02 })`. -/
def moodPlay (v : MoodValues) (amount : ℚ) : MoodValues :=
  moodApply v { boredom := some (-amount), trust := some (3/100), mischief := some (-(2/100)) }

/-- A scalar lies in the unit interval. -/
def inRange01 (x : ℚ) : Prop := 0 ≤ x ∧ x ≤ 1

instance (x : ℚ) : Decidable (inRange01 x) := by unfold inRange01; infer_instance

/-- All six mood scalars lie in [0,1] (the §3 invariant). -/
def MoodValues.InRange (v : MoodValues) : Prop :=
  inRange01 v.hunger ∧ inRange01 v.boredom ∧ inRange01 v.fatigue ∧
  inRange01 v.trust ∧ inRange01 v.mischief ∧ inRange01 v.comfort

instance (v : MoodValues) : Decidable v.InRange := by
  unfold MoodValues.InRange; infer_instance

/-- A valid (non-negative) rate configuration. -/
def MoodDecayRates.Valid (r : MoodDecayRates) : Prop :=
  0 ≤ r.hungerGrowth ∧ 0 ≤ r.boredomGrowth ∧ 0 ≤ r.fatigueGrowth ∧
  0 ≤ r.trustDecay ∧ 0 ≤ r.mischiefGrowth ∧ 0 ≤ r.comfortDecay

instance (r : MoodDecayRates) : Decidable r.Valid := by
  unfold MoodDecayRates.Valid; infer_instance

/-! ## ChildAI (src/entities/ChildAI.ts) -/

/-- `ChildPersonality` from Child.ts. -/
structure Personality where
  shyness : ℚ
  curiosity : ℚ
  energy : ℚ
  clinginess : ℚ
  stubbornness : ℚ
deriving DecidableEq, Repr

/-- `AgeGroup` from Child.ts. -/
inductive AgeGroup where
  | infant
  | toddler
  | child
deriving DecidableEq, Repr

/-- The fields of `AIContext` read by the embedded logic.  `playerDistance`
and `tvIsOn` are written by `ChildAI.update` but `tvIsOn` is never read by
any selector; `nearestSibling : Child | null` is only tested for presence,
so it is a `Bool` here.  `child` and `nearestToy` are carried by the record
in the source but not read by the decision logic modelled here. -/
structure AIContext where
  playerDistance : ℚ
  tvIsOn : Bool
  nearestSibling : Bool
deriving DecidableEq, Repr

/-- `ChildState` from ChildAI.ts (string values of the TS enum). -/
inductive ChildState where
  | sleeping
  | content
  | needy
  | upset
  | tantrum
deriving DecidableEq, Repr

/-- `ChildAI.pickContentAction`: utility scores in source order; the list is
stably sorted descending and the head taken, i.e. the first-listed maximum
wins.  `PlayWithSibling` is appended only when `context.nearestSibling` is
set.  Note: the score list never consults `context.tvIsOn`. -/
def pickContentAction (mood : MoodValues) (personality : Personality)
    (ctx : AIContext) : String :=
  let scores : List (String × ℚ) :=
    [("play_alone", mood.boredom * (6/10) + (1 - mood.fatigue) * (3/10)),
     ("watch_tv", mood.boredom * (4/10) + mood.fatigue * (3/10)),
     ("follow_player", personality.clinginess * (5/10) + (1 - mood.trust) * (3/10)),
     ("explore", personality.curiosity * (5/10) + mood.boredom * (3/10)),
     ("sit_idle", mood.fatigue * (6/10))]
  let scores :=
    if ctx.nearestSibling then
      scores ++ [("play_sibling", mood.boredom * (5/10) + 3/10)]
    else scores
  bestOf scores "sit_idle"

/-- `ChildAI.pickNeedyAction`: chosen from `urgentNeed`. -/
def pickNeedyAction (mood : MoodValues) : String :=
  match urgentNeed mood with
  | "hunger" => "request_food"
  | "boredom" => "request_attention"
  | "comfort" => "request_comfort"
  | _ => "request_attention"

/-- `ChildAI.pickUpsetAction`: personality decision tree, top-down. -/
def pickUpsetAction (mood : MoodValues) (personality : Personality) : String :=
  if 6/10 < personality.shyness then "hiding"
  else if 6/10 < personality.stubbornness then "refusing"
  else if 6/10 < personality.energy ∧ 1/2 < mood.mischief then "breaking"
  else "crying"

/-- `ChildAI.pickTantrumAction`: never assigns `contagious_crying`. -/
def pickTantrumAction (personality : Personality) : String :=
  if 7/10 < personality.energy then "throwing"
  else if 7/10 < personality.stubbornness then "floor_tantrum"
  else "screaming"

/-- The mutable per-agent AI state: the FSM current regime, the fields of
`ChildAI` (`currentAction`, `actionTimer`) and the `Child` flags the hooks
write (`isSleeping`, `isPlaying`). -/
structure AIState where
  current : ChildState
  currentAction : String
  actionTimer : ℚ
  isSleeping : Bool
  isPlaying : Bool
deriving DecidableEq, Repr

/-- Events emitted through `EventBus` by the embedded code paths. -/
inductive Ev where
  | stateChange (s : String)
  | actionEv (a : String)
  | tantrumEnter
  | tantrumTick
  | contagiousCry
  | upsetTick
deriving DecidableEq, Repr

/-- The transition table of `ChildAI.buildStates`, evaluated the way
`StateMachine.update` does: transitions sorted descending by priority
(so each state's priority-2 guard is tested before its priority-1 guard)
and the first true guard names the target; `none` means no guard fired.
`isCritical()` in the Upset guard uses the default threshold 0.85. -/
def transitionTarget (s : ChildState) (m : MoodValues) (actionTimer : ℚ) :
    Option ChildState :=
  match s with
  | .sleeping =>
      if 8/10 < m.hunger then some .needy
      else if m.fatigue < 3/10 then some .content
      else none
  | .content =>
      if 9/10 < m.fatigue then some .sleeping
      else if hasUrgentNeed m (7/10) then some .needy
      else none
  | .needy =>
      if isCritical m (85/100) || decide (m.trust < 2/10) then some .upset
      else if !hasUrgentNeed m (1/2) then some .content
      else none
  | .upset =>
      if decide (30 < actionTimer) ||
          (decide (9/10 < m.hunger) && decide (8/10 < m.fatigue)) then some .tantrum
      else if decide (35/100 < m.trust) && !isCritical m (85/100) then some .needy
      else none
  | .tantrum =>
      if 98/100 < m.fatigue then some .sleeping
      else if decide (45 < actionTimer) || decide (95/100 < m.fatigue) then some .upset
      else none

/-- The exit hook applied when leaving the current state: only Sleeping
has an `onExit` (clear `isSleeping`). -/
def exitAdjust (st : AIState) : AIState :=
  if st.current = ChildState.sleeping then { st with isSleeping := false } else st

/-- `StateMachine.transitionTo` specialised to the five ChildAI states:
run the old state's `onExit`, set the new current state, then run the new
state's `onEnter` (set flags, emit `child.stateChange`, pick the state's
action, and for Tantrum emit `child.tantrum`). -/
def doTransition (st : AIState) (tgt : ChildState) (m : MoodValues)
    (p : Personality) (ctx : AIContext) : AIState × List Ev :=
  let st := exitAdjust st
  match tgt with
  | .sleeping =>
      ({ st with current := .sleeping, isSleeping := true },
       [Ev.stateChange "sleeping"])
  | .content =>
      let a := pickContentAction m p ctx
      ({ st with current := .content, currentAction := a, actionTimer := 0 },
       [Ev.stateChange "content", Ev.actionEv a])
  | .needy =>
      let a := pickNeedyAction m
      ({ st with current := .needy, currentAction := a, actionTimer := 0 },
       [Ev.stateChange "needy", Ev.actionEv a])
  | .upset =>
      let a := pickUpsetAction m p
      ({ st with current := .upset, currentAction := a, actionTimer := 0 },
       [Ev.stateChange "upset", Ev.actionEv a])
  | .tantrum =>
      let a := pickTantrumAction p
      ({ st with current := .tantrum, currentAction := a, actionTimer := 0 },
       [Ev.stateChange "tantrum", Ev.actionEv a, Ev.tantrumEnter])

/-- The `onUpdate` hooks of the five states (run only when no transition
fired this tick).  Content re-picks after 10s and then refreshes
`isPlaying` from the (possibly new) current action; Needy re-picks after
15s; Upset emits `child.upset`; Tantrum emits `child.tantrum.tick` and,
when the current action is `contagious_crying`, `child.contagiousCry`. -/
def stateOnUpdate (st : AIState) (m : MoodValues) (p : Personality)
    (ctx : AIContext) (dt : ℚ) : AIState × List Ev :=
  match st.current with
  | .sleeping => (st, [])
  | .content =>
      let t := st.actionTimer + dt
      let su :=
        if 10 < t then
          let a := pickContentAction m p ctx
          ({ st with currentAction := a, actionTimer := 0 }, [Ev.actionEv a])
        else ({ st with actionTimer := t }, ([] : List Ev))
      ({ su.1 with isPlaying :=
          su.1.currentAction == "play_alone" || su.1.currentAction == "play_sibling" },
       su.2)
  | .needy =>
      let t := st.actionTimer + dt
      if 15 < t then
        let a := pickNeedyAction m
        ({ st with currentAction := a, actionTimer := 0 }, [Ev.actionEv a])
      else ({ st with actionTimer := t }, [])
  | .upset =>
      ({ st with actionTimer := st.actionTimer + dt }, [Ev.upsetTick])
  | .tantrum =>
      ({ st with actionTimer := st.actionTimer + dt },
       [Ev.tantrumTick] ++
         (if st.currentAction = "contagious_crying" then [Ev.contagiousCry] else []))

/-- One `StateMachine.update(dt)` tick of the ChildAI machine: evaluate the
current state's guards (descending priority); if one fires, transition and
return without running the new state's `onUpdate` this tick; otherwise run
the current state's `onUpdate`. -/
def fsmStep (st : AIState) (m : MoodValues) (p : Personality)
    (ctx : AIContext) (dt : ℚ) : AIState × List Ev :=
  match transitionTarget st.current m st.actionTimer with
  | some tgt => doTransition st tgt m p ctx
  | none => stateOnUpdate st m p ctx dt

/-- The `ChildAI` constructor: `currentAction` starts as `sit_idle`, the
context starts with `tvIsOn = false` and no sibling (`playerDistance` is
`Infinity` in the source but never read; it is 0 here), and the machine is
transitioned to Sleeping if the initial fatigue exceeds 0.8, else Content.
The first `transitionTo` has no previous state, so no exit hook runs. -/
def initAI (m : MoodValues) (p : Personality) : AIState × List Ev :=
  let base : AIState :=
    { current := .content, currentAction := "sit_idle", actionTimer := 0
      isSleeping := false, isPlaying := false }
  if 8/10 < m.fatigue then
    ({ base with current := .sleeping, isSleeping := true },
     [Ev.stateChange "sleeping"])
  else
    let ctx0 : AIContext := { playerDistance := 0, tvIsOn := false, nearestSibling := false }
    let a := pickContentAction m p ctx0
    ({ base with current := .content, currentAction := a },
     [Ev.stateChange "content", Ev.actionEv a])

/-- The per-tick inputs the driver feeds `ChildAI.update`: the (already
updated) mood the guards read, the immutable personality, the context
snapshot, and the timestep. -/
structure AITick where
  mood : MoodValues
  pers : Personality
  ctx : AIContext
  dt : ℚ

/-- Iterate the FSM over a stream of ticks. -/
def runAI (st : AIState) (ticks : ℕ → AITick) : ℕ → AIState
  | 0 => st
  | n + 1 =>
      (fsmStep (runAI st ticks n) (ticks n).mood (ticks n).pers
        (ticks n).ctx (ticks n).dt).1

/-- The events emitted at tick `n` (the tick consuming `ticks n`). -/
def runAIEvents (st : AIState) (ticks : ℕ → AITick) (n : ℕ) : List Ev :=
  (fsmStep (runAI st ticks n) (ticks n).mood (ticks n).pers
    (ticks n).ctx (ticks n).dt).2

/-! ## ChildInteraction (src/systems/EmergencySystem.ts) -/

/-- The `Child` entity fields read or written by `ChildInteraction`:
`profile.id`, `profile.age`, `mood.values`, `currentRoom`, `position`
and the `isPlaying` flag. -/
structure Child where
  id : String
  age : AgeGroup
  mood : MoodValues
  currentRoom : ℕ
  pos : ℚ × ℚ × ℚ
  isPlaying : Bool
deriving DecidableEq, Repr

/-- Squared euclidean distance.  The source tests
`a.position.distanceTo(b.position) > 3`; for nonnegative distances this is
equivalent to `distSq > 9`, which keeps the model in ℚ. -/
def distSq (a b : ℚ × ℚ × ℚ) : ℚ :=
  (a.1 - b.1) ^ 2 + (a.2.1 - b.2.1) ^ 2 + (a.2.2 - b.2.2) ^ 2

/-- The `child.contagiousCry` listener of `ChildInteraction.setupListeners`:
every child in the roster other than the crier is examined — there is no
room or proximity check; infants lose 0.1 comfort, otherwise (`else if`) a
child already below 0.5 comfort loses 0.05, and any other child is left
untouched. -/
def onContagiousCry (cryingChildId : String) (children : List Child) : List Child :=
  children.map fun c =>
    if c.id = cryingChildId then c
    else if c.age = AgeGroup.infant then
      { c with mood := moodApply c.mood { comfort := some (-(1/10)) } }
    else if c.mood.comfort < 1/2 then
      { c with mood := moodApply c.mood { comfort := some (-(5/100)) } }
    else c

/-- The sharing/fighting block of `ChildInteraction.update` for one pair,
run only when both are playing: if either mischief exceeds 0.7 both lose
comfort (fighting), else both get `mood.play(0.005 * dt)` (cooperation). -/
def playPair (dt : ℚ) (a b : Child) : Child × Child :=
  if a.isPlaying && b.isPlaying then
    if 7/10 < a.mood.mischief ∨ 7/10 < b.mood.mischief then
      ({ a with mood := moodApply a.mood { comfort := some (-(2/100) * dt) } },
       { b with mood := moodApply b.mood { comfort := some (-(2/100) * dt) } })
    else
      ({ a with mood := moodPlay a.mood ((5/1000) * dt) },
       { b with mood := moodPlay b.mood ((5/1000) * dt) })
  else (a, b)

/-- The mood deltas of the bullying block:
`{ comfort: -0.03 * dt, trust: -0.01 * dt }`. -/
def bullyDeltas (dt : ℚ) : MoodDeltas :=
  { trust := some (-(1/100) * dt), comfort := some (-(3/100) * dt) }

/-- The bullying block of `ChildInteraction.update` for one pair: only the
first element `a` of the pair is tested as the bully. -/
def bullyPair (dt : ℚ) (a b : Child) : Child × Child :=
  if a.age = AgeGroup.child ∧ b.age ≠ AgeGroup.child ∧ 7/10 < a.mood.mischief then
    (a, { b with mood := moodApply b.mood (bullyDeltas dt) })
  else (a, b)

/-- The body of the double loop of `ChildInteraction.update` for the pair
`(a, b)` with `a` at the smaller index: skip pairs in different rooms or
farther than 3 units apart, then run the play block and, on its in-place
results, the bullying block. -/
def pairStep (dt : ℚ) (a b : Child) : Child × Child :=
  if a.currentRoom ≠ b.currentRoom then (a, b)
  else if 9 < distSq a.pos b.pos then (a, b)
  else
    let p := playPair dt a b
    bullyPair dt p.1 p.2

/-- Inner loop for a fixed `i`: pair `a` (the current `children[i]`) with
each later child in order, threading the in-place updates of both. -/
def stepHead (dt : ℚ) (a : Child) : List Child → Child × List Child
  | [] => (a, [])
  | b :: bs =>
      let p := pairStep dt a b
      let q := stepHead dt p.1 bs
      (q.1, p.2 :: q.2)

/-- Outer loop of `ChildInteraction.update`: index `i` walks the roster;
the fuel argument counts the remaining outer iterations (the source loop
runs exactly `children.length` times, and `stepHead` preserves length). -/
def interactionGo (dt : ℚ) : ℕ → List Child → List Child
  | 0, cs => cs
  | _ + 1, [] => []
  | n + 1, a :: rest =>
      let p := stepHead dt a rest
      p.1 :: interactionGo dt n p.2

/-- `ChildInteraction.update(dt)`: the per-tick pairwise scan, with updates
applied in place while scanning (as in the source). -/
def interactionUpdate (dt : ℚ) (cs : List Child) : List Child :=
  interactionGo dt cs.length cs

/-! ## Generic StateMachine (src/core/StateMachine.ts) -/

/-- A registered state: its name plus `onEnter`/`onExit` hooks acting on the
shared context (absent hooks in the source are the identity here).  The
per-state transition list and `subStates` play no role in `transitionTo`
and are not needed by the claims about it. -/
structure SMState (γ : Type) where
  name : String
  onEnter : γ → γ
  onExit : γ → γ

/-- The `StateMachine` fields touched by `transitionTo`: the registered
states (a name-keyed map, modelled as an insertion-ordered list), the
current state name, the context, and a log of `console.warn` messages. -/
structure SM (γ : Type) where
  states : List (SMState γ)
  current : Option String
  context : γ
  warnings : List String

/-- `this.states.get(stateName)`. -/
def SM.findState {γ : Type} (sm : SM γ) (n : String) : Option (SMState γ) :=
  sm.states.find? (fun s => s.name == n)

/-- The message of `console.warn` in `transitionTo`. -/
def unknownStateMsg (stateName : String) : String :=
  "StateMachine: state \"" ++ stateName ++ "\" not found"

/-- `StateMachine.transitionTo(stateName)`: when the name is not registered
it logs a warning and returns — the current state, the context, and the
caller all continue unchanged; no exception is thrown.  Otherwise it runs
the old state's exit hook, installs the new state and runs its enter hook. -/
def SM.transitionTo {γ : Type} (sm : SM γ) (stateName : String) : SM γ :=
  match sm.findState stateName with
  | none => { sm with warnings := sm.warnings ++ [unknownStateMsg stateName] }
  | some ns =>
      let ctx1 :=
        match sm.current.bind sm.findState with
        | some cur => cur.onExit sm.context
        | none => sm.context
      { sm with context := ns.onEnter ctx1, current := some ns.name }

/-! ## Derived predicates and concrete instances used in the theorems -/

/-- The action-label invariant behind the contagious-cry emission guard:
the agent's current action is not the Tantrum `ContagiousCrying` value. -/
def GoodAction (st : AIState) : Prop := st.currentAction ≠ "contagious_crying"

/-- The guard of the bullying block, with `a` in the bully position. -/
def bullyGuard (a b : Child) : Prop :=
  a.age = AgeGroup.child ∧ b.age ≠ AgeGroup.child ∧ 7/10 < a.mood.mischief

/-- Zeroed personality (clinginess and curiosity 0 keep FollowPlayer and
Explore scores low in the selector examples). -/
def pZero : Personality :=
  { shyness := 0, curiosity := 0, energy := 0, clinginess := 0, stubbornness := 0 }

/-- A context whose TV flag is off and with no co-located sibling. -/
def ctxNoTV : AIContext := { playerDistance := 0, tvIsOn := false, nearestSibling := false }

/-- Mood with boredom 0.6 and fatigue 0.75: makes WatchTV the strict
maximum of the Content utility scores under `pZero`. -/
def mC2 : MoodValues :=
  { hunger := 2/10, boredom := 6/10, fatigue := 75/100
    trust := 1, mischief := 1/10, comfort := 8/10 }

/-- Mood strictly between the Needy thresholds (boredom 0.6) but with
trust 0.1, which triggers the Needy → Upset guard. -/
def mC6 : MoodValues :=
  { hunger := 2/10, boredom := 6/10, fatigue := 3/10
    trust := 1/10, mischief := 1/10, comfort := 8/10 }

/-- Mood strictly between the Needy thresholds with healthy trust 0.5. -/
def mC6ok : MoodValues :=
  { hunger := 2/10, boredom := 6/10, fatigue := 3/10
    trust := 5/10, mischief := 1/10, comfort := 8/10 }

/-- Mood whose boredom (0.498) crosses the 0.5 mischief-branch threshold
during one simulated second under the default rates. -/
def mC7 : MoodValues :=
  { hunger := 2/10, boredom := 498/1000, fatigue := 3/10
    trust := 5/10, mischief := 1/10, comfort := 8/10 }

/-- An agent sitting in the Needy regime. -/
def needySt : AIState :=
  { current := .needy, currentAction := "request_attention", actionTimer := 0
    isSleeping := false, isPlaying := false }

/-- A non-tier-3 (toddler) agent in room 0 at the origin, not playing. -/
def childA : Child :=
  { id := "kid_a", age := .toddler
    mood := { hunger := 2/10, boredom := 1/10, fatigue := 3/10
              trust := 5/10, mischief := 1/10, comfort := 8/10 }
    currentRoom := 0, pos := (0, 0, 0), isPlaying := false }

/-- A tier-3 (child) agent with mischief 0.8, one unit from `childA` in
the same room, not playing. -/
def childB : Child :=
  { id := "kid_b", age := .child
    mood := { hunger := 2/10, boredom := 1/10, fatigue := 3/10
              trust := 5/10, mischief := 8/10, comfort := 8/10 }
    currentRoom := 0, pos := (1, 0, 0), isPlaying := false }

/-- The agent whose contagious cry is being broadcast. -/
def crier : Child :=
  { id := "c0", age := .toddler, mood := defaultMood
    currentRoom := 0, pos := (0, 0, 0), isPlaying := false }

/-- A toddler co-located with `crier` whose comfort (0.8) is above 0.5. -/
def calm : Child :=
  { id := "c1", age := .toddler, mood := defaultMood
    currentRoom := 0, pos := (1, 0, 0), isPlaying := false }

/-- An infant in a different, distant room from `crier`. -/
def farInfant : Child :=
  { id := "c2", age := .infant, mood := defaultMood
    currentRoom := 5, pos := (100, 0, 0), isPlaying := false }

/-- A one-state machine over context ℕ, currently in state `a`. -/
def smA : SM ℕ :=
  { states := [{ name := "a", onEnter := id, onExit := id }]
    current := some "a", context := 0, warnings := [] }

/-! ## Helper lemmas -/

lemma clamp01_inRange (x : ℚ) : inRange01 (clamp x 0 1) := by
  unfold inRange01 clamp
  exact ⟨le_max_left 0 _, max_le (by norm_num) (min_le_left 1 x)⟩

lemma clamp01_of_mem {x : ℚ} (h0 : 0 ≤ x) (h1 : x ≤ 1) : clamp x 0 1 = x := by
  unfold clamp
  rw [min_eq_right h1, max_eq_right h0]

lemma clamp01_of_ge {x : ℚ} (h : 1 ≤ x) : clamp x 0 1 = 1 := by
  unfold clamp
  rw [min_eq_left h, max_eq_right (by norm_num : (0:ℚ) ≤ 1)]

lemma clamp01_of_le {x : ℚ} (h : x ≤ 0) : clamp x 0 1 = 0 := by
  unfold clamp
  exact max_eq_left (le_trans (min_le_right 1 x) h)

lemma clamp01_le_of_le {x c : ℚ} (hx : x ≤ c) (hc : 0 ≤ c) : clamp x 0 1 ≤ c := by
  unfold clamp
  exact max_le hc (le_trans (min_le_right 1 x) hx)

lemma hungerStep_inRange (r : MoodDecayRates) (dt : ℚ) (s : Bool) {x : ℚ}
    (hx : inRange01 x) : inRange01 (hungerStep r dt s x) := by
  unfold hungerStep
  split
  · exact hx
  · exact clamp01_inRange _

lemma boredomStep_inRange (r : MoodDecayRates) (dt : ℚ) (s p : Bool) (x : ℚ) :
    inRange01 (boredomStep r dt s p x) := by
  unfold boredomStep
  split
  · exact clamp01_inRange _
  · split
    · exact clamp01_inRange _
    · exact clamp01_inRange _

lemma fatigueStep_inRange (r : MoodDecayRates) (dt : ℚ) (s : Bool) (x : ℚ) :
    inRange01 (fatigueStep r dt s x) := by
  unfold fatigueStep
  split
  · exact clamp01_inRange _
  · exact clamp01_inRange _

lemma mischiefStep_inRange (r : MoodDecayRates) (dt : ℚ) (s : Bool) (nb nf x : ℚ) :
    inRange01 (mischiefStep r dt s nb nf x) := by
  unfold mischiefStep
  split
  · exact clamp01_inRange _
  · split
    · exact clamp01_inRange _
    · exact clamp01_inRange _

lemma trustStep_inRange (r : MoodDecayRates) (dt : ℚ) (h : Bool) {x : ℚ}
    (hx : inRange01 x) : inRange01 (trustStep r dt h x) := by
  unfold trustStep
  split
  · exact hx
  · exact clamp01_inRange _

lemma comfortStep_inRange (r : MoodDecayRates) (dt : ℚ) (x : ℚ) :
    inRange01 (comfortStep r dt x) := by
  unfold comfortStep
  exact clamp01_inRange _

lemma moodApply_inRange {v : MoodValues} (d : MoodDeltas) (hv : v.InRange) :
    (moodApply v d).InRange := by
  obtain ⟨h1, h2, h3, h4, h5, h6⟩ := hv
  refine ⟨?_, ?_, ?_, ?_, ?_, ?_⟩ <;> unfold moodApply <;> dsimp only
  · cases d.hunger with
    | some x => exact clamp01_inRange _
    | none => exact h1
  · cases d.boredom with
    | some x => exact clamp01_inRange _
    | none => exact h2
  · cases d.fatigue with
    | some x => exact clamp01_inRange _
    | none => exact h3
  · cases d.trust with
    | some x => exact clamp01_inRange _
    | none => exact h4
  · cases d.mischief with
    | some x => exact clamp01_inRange _
    | none => exact h5
  · cases d.comfort with
    | some x => exact clamp01_inRange _
    | none => exact h6

lemma moodUpdate_inRange {v : MoodValues} (r : MoodDecayRates) (dt : ℚ)
    (s p h : Bool) (hv : v.InRange) :
    (moodUpdate v r dt s p h).InRange := by
  obtain ⟨h1, h2, h3, h4, h5, h6⟩ := hv
  exact ⟨hungerStep_inRange r dt s h1,
    boredomStep_inRange r dt s p _,
    fatigueStep_inRange r dt s _,
    trustStep_inRange r dt h h4,
    mischiefStep_inRange r dt s _ _ _,
    comfortStep_inRange r dt _⟩

/-! ## C1 -/

/-- C1: for every start state with all six scalars in [0,1], every dt ≥ 0,
every flag combination and every non-negative rate configuration, all six
scalars of `MoodVector.update` stay in [0,1]; and `MoodVector.apply` with
arbitrary deltas also keeps all six scalars in [0,1]. -/
theorem c1_update_apply_bounded (v : MoodValues) (r : MoodDecayRates) (dt : ℚ)
    (isSleeping isPlaying isBeingHeld : Bool) (d : MoodDeltas)
    (hv : v.InRange) (hdt : 0 ≤ dt) (hr : r.Valid) :
    (moodUpdate v r dt isSleeping isPlaying isBeingHeld).InRange ∧
    (moodApply v d).InRange :=
  ⟨moodUpdate_inRange r dt isSleeping isPlaying isBeingHeld hv,
   moodApply_inRange d hv⟩

/-- Witness for C1 at the constructor-default mood, the default rates,
dt = 1, all flags false, and a feed-like delta. -/
theorem c1_update_apply_bounded_witness :
    defaultMood.InRange ∧ (0:ℚ) ≤ 1 ∧ DEFAULT_RATES.Valid ∧
    ((moodUpdate defaultMood DEFAULT_RATES 1 false false false).InRange ∧
     (moodApply defaultMood { hunger := some (-(3/10)), trust := some (5/100) }).InRange) :=
  ⟨by simp only [defaultMood, MoodValues.InRange, inRange01]; norm_num,
   by norm_num,
   by simp only [DEFAULT_RATES, MoodDecayRates.Valid]; norm_num,
   c1_update_apply_bounded defaultMood DEFAULT_RATES 1 false false false
     { hunger := some (-(3/10)), trust := some (5/100) }
     (by simp only [defaultMood, MoodValues.InRange, inRange01]; norm_num)
     (by norm_num)
     (by simp only [DEFAULT_RATES, MoodDecayRates.Valid]; norm_num)⟩

/-! ## C3 -/

/-- C3 counterexample: at hunger 0.2, boredom 0.1, fatigue 0.3, trust 0.5,
comfort 0.8 the `happiness` getter returns 0.745, which is not within 1e-6
of the claimed 0.795 (the spec mis-totals its own weighted sum:
0.2 + 0.18 + 0.105 + 0.1 + 0.16 = 0.745). -/
theorem c3_happiness_counterexample :
    happiness defaultMood = 745/1000 ∧
    ¬ |happiness defaultMood - 795/1000| ≤ 1/1000000 := by
  have h : happiness defaultMood = 745/1000 := by
    simp only [happiness, defaultMood]; norm_num
  refine ⟨h, ?_⟩
  rw [h]
  rw [show (745:ℚ)/1000 - 795/1000 = -(50/1000) by norm_num]
  rw [abs_neg, abs_of_nonneg (by norm_num : (0:ℚ) ≤ 50/1000)]
  norm_num

/-- C3 amended: at hunger 0.2, boredom 0.1, fatigue 0.3, trust 0.5,
comfort 0.8 the wellbeing function (mischief excluded) returns 0.745 to
within 1e-6 (exactly, in fact). -/
theorem c3_happiness_value :
    |happiness defaultMood - 745/1000| ≤ 1/1000000 := by
  have h : happiness defaultMood = 745/1000 := by
    simp only [happiness, defaultMood]; norm_num
  rw [h, sub_self, abs_zero]
  norm_num

/-! ## C2 -/

/-- C2 (code bug): `pickContentAction` never consults the context's
`tvIsOn` flag, so with the TV off (and no sibling), boredom 0.6 and
fatigue 0.75 score WatchTV = 0.465 above every other candidate
(PlayAlone 0.435, FollowPlayer 0, Explore 0.18, SitIdle 0.45) and the
chosen Content action is `watch_tv` — contradicting the repository plan
("Watching_TV (if TV is on, ...)"). -/
theorem c2_watchtv_chosen_with_tv_off :
    pickContentAction mC2 pZero ctxNoTV = "watch_tv" ∧ ctxNoTV.tvIsOn = false := by
  constructor
  · simp only [pickContentAction, ctxNoTV, mC2, pZero, bestOf, if_false,
      Bool.false_eq_true, List.foldl_cons, List.foldl_nil]
    norm_num
  · rfl

/-! ## C9 -/

/-- C9 counterexample: requesting a transition to the unregistered name
`bogus` on a machine currently in state `a` leaves the current state at
`a` and the context untouched, appends a console warning, and returns
normally — a warned no-op, not a signalled error. -/
theorem c9_unknown_transition_counterexample :
    (smA.transitionTo "bogus").current = some "a" ∧
    (smA.transitionTo "bogus").context = smA.context ∧
    (smA.transitionTo "bogus").warnings = [unknownStateMsg "bogus"] :=
  ⟨rfl, rfl, rfl⟩

/-- C9 amended: for every machine and every state name that is not
registered, `transitionTo` logs a `console.warn` message and is otherwise
a no-op: the current state and the context are unchanged and no error is
signalled (the function returns normally). -/
theorem c9_unknown_transition_noop {γ : Type} (sm : SM γ) (name : String)
    (h : sm.findState name = none) :
    (sm.transitionTo name).current = sm.current ∧
    (sm.transitionTo name).context = sm.context ∧
    (sm.transitionTo name).warnings = sm.warnings ++ [unknownStateMsg name] := by
  unfold SM.transitionTo
  rw [h]
  exact ⟨rfl, rfl, rfl⟩

/-- Witness for C9 amended at the concrete machine `smA`. -/
theorem c9_unknown_transition_noop_witness :
    smA.findState "bogus" = none ∧
    ((smA.transitionTo "bogus").current = smA.current ∧
     (smA.transitionTo "bogus").context = smA.context ∧
     (smA.transitionTo "bogus").warnings = smA.warnings ++ [unknownStateMsg "bogus"]) :=
  ⟨rfl, c9_unknown_transition_noop smA "bogus" rfl⟩

/-! ## C4 -/

lemma moodApply_comfort_only (v : MoodValues) (x : ℚ) :
    moodApply v { comfort := some x } = { v with comfort := clamp (v.comfort + x) 0 1 } := rfl

/-- C4 counterexample: broadcasting `c0`'s contagious cry leaves the
co-located toddler `c1` (comfort 0.8) completely unchanged — refuting
"every other co-located agent loses comfort" — while the infant `c2` in a
different room still loses 0.1 comfort — refuting "agents that are not
co-located are left unchanged" (the listener never checks rooms). -/
theorem c4_contagion_counterexample :
    onContagiousCry "c0" [crier, calm, farInfant] =
      [crier, calm, { farInfant with mood := { farInfant.mood with comfort := 7/10 } }] ∧
    calm.currentRoom = crier.currentRoom ∧
    farInfant.currentRoom ≠ crier.currentRoom := by
  refine ⟨?_, rfl, by decide⟩
  simp only [onContagiousCry, List.map_cons, List.map_nil, crier, calm, farInfant,
    defaultMood, moodApply_comfort_only, clamp]
  norm_num
  exact ⟨fun _ => by decide, by decide⟩

/-- C4 amended: on a contagious-cry signal, every roster child other than
the crier is affected regardless of room or proximity: an infant loses 0.1
comfort; a non-infant already below 0.5 comfort loses 0.05; a non-infant
at or above 0.5 comfort is unchanged (so the infant and the below-0.5
penalties never stack). -/
theorem c4_contagion_per_child (cryId : String) (cs : List Child) (i : ℕ)
    (c : Child) (hc : cs.get? i = some c) (hid : c.id ≠ cryId) :
    (c.age = AgeGroup.infant →
      (onContagiousCry cryId cs).get? i =
        some { c with mood := { c.mood with comfort := clamp (c.mood.comfort - 1/10) 0 1 } }) ∧
    (c.age ≠ AgeGroup.infant → c.mood.comfort < 1/2 →
      (onContagiousCry cryId cs).get? i =
        some { c with mood := { c.mood with comfort := clamp (c.mood.comfort - 5/100) 0 1 } }) ∧
    (c.age ≠ AgeGroup.infant → ¬ c.mood.comfort < 1/2 →
      (onContagiousCry cryId cs).get? i = some c) := by
  unfold onContagiousCry
  rw [List.get?_map, hc]
  have e1 : c.mood.comfort + -(1/10) = c.mood.comfort - 1/10 := by ring
  have e2 : c.mood.comfort + -(5/100) = c.mood.comfort - 5/100 := by ring
  refine ⟨fun hinf => ?_, fun hninf hlt => ?_, fun hninf hge => ?_⟩
  · simp only [Option.map_some']
    rw [if_neg hid, if_pos hinf, moodApply_comfort_only, e1]
  · simp only [Option.map_some']
    rw [if_neg hid, if_neg hninf, if_pos hlt, moodApply_comfort_only, e2]
  · simp only [Option.map_some']
    rw [if_neg hid, if_neg hninf, if_neg hge]

/-- Witness for C4 amended: the distant infant `c2` of the concrete roster. -/
theorem c4_contagion_per_child_witness :
    ([crier, calm, farInfant].get? 2 = some farInfant) ∧
    farInfant.id ≠ "c0" ∧
    (onContagiousCry "c0" [crier, calm, farInfant]).get? 2 =
      some { farInfant with mood :=
        { farInfant.mood with comfort := clamp (farInfant.mood.comfort - 1/10) 0 1 } } :=
  ⟨rfl, by decide,
   (c4_contagion_per_child "c0" [crier, calm, farInfant] 2 farInfant rfl (by decide)).1 rfl⟩

/-! ## C5 -/

lemma distSq_comm (a b : ℚ × ℚ × ℚ) : distSq a b = distSq b a := by
  unfold distSq; ring

/-- C5 counterexample: `childA` (toddler) and `childB` (tier-3, mischief
0.8) are in the same room one unit apart, yet one interaction pass over
the list `[childA, childB]` changes nothing at all — in particular the
non-tier-3 agent's comfort and trust are not reduced — because the
bullying guard only ever tests the pair member at the smaller index as
the bully. -/
theorem c5_bully_position_counterexample :
    interactionUpdate 1 [childA, childB] = [childA, childB] ∧
    childA.age ≠ AgeGroup.child ∧ childB.age = AgeGroup.child ∧
    7/10 < childB.mood.mischief ∧
    childA.currentRoom = childB.currentRoom ∧ distSq childA.pos childB.pos ≤ 9 := by
  refine ⟨?_, by decide, rfl, ?_, rfl, ?_⟩
  · simp only [interactionUpdate, interactionGo, stepHead, pairStep, playPair,
      bullyPair, distSq, childA, childB, List.length_cons, List.length_nil]
    norm_num
  · simp only [childB]; norm_num
  · simp only [distSq, childA, childB]; norm_num

/-- C5 amended: the bullying effect fires only when the tier-3 bully is
the pair member at the smaller index.  For a co-located pair within the
radius that is not jointly playing, a tier-3 first member with mischief
above 0.7 and a non-tier-3 second member, the pair step deducts
0.03·dt comfort and 0.01·dt trust from the second member; with the same
two agents in swapped positions it does nothing. -/
theorem c5_bullying_requires_bully_first (dt : ℚ) (a b : Child)
    (hroom : a.currentRoom = b.currentRoom)
    (hdist : distSq a.pos b.pos ≤ 9)
    (hplay : (a.isPlaying && b.isPlaying) = false)
    (ha : a.age = AgeGroup.child) (hb : b.age ≠ AgeGroup.child)
    (hm : 7/10 < a.mood.mischief) :
    pairStep dt a b = (a, { b with mood := moodApply b.mood (bullyDeltas dt) }) ∧
    pairStep dt b a = (b, a) := by
  have hpp : playPair dt a b = (a, b) := by
    unfold playPair
    rw [if_neg (by simp [hplay])]
  have hpp2 : playPair dt b a = (b, a) := by
    unfold playPair
    rw [if_neg (by simp [Bool.and_comm b.isPlaying a.isPlaying, hplay])]
  constructor
  · unfold pairStep
    rw [if_neg (by simp [hroom]), if_neg (not_lt.mpr hdist)]
    show bullyPair dt (playPair dt a b).1 (playPair dt a b).2 = _
    rw [hpp]
    unfold bullyPair
    rw [if_pos ⟨ha, hb, hm⟩]
  · unfold pairStep
    rw [if_neg (by simp [hroom]), if_neg (by rw [distSq_comm]; exact not_lt.mpr hdist)]
    show bullyPair dt (playPair dt b a).1 (playPair dt b a).2 = _
    rw [hpp2]
    unfold bullyPair
    rw [if_neg (fun h => hb h.1)]

/-- Witness for C5 amended: `childB` bullies `childA` when listed first;
nothing happens when `childA` is listed first. -/
theorem c5_bullying_requires_bully_first_witness :
    childB.currentRoom = childA.currentRoom ∧
    distSq childB.pos childA.pos ≤ 9 ∧
    (childB.isPlaying && childA.isPlaying) = false ∧
    childB.age = AgeGroup.child ∧ childA.age ≠ AgeGroup.child ∧
    7/10 < childB.mood.mischief ∧
    (pairStep 1 childB childA =
      (childB, { childA with mood := moodApply childA.mood (bullyDeltas 1) }) ∧
     pairStep 1 childA childB = (childA, childB)) :=
  ⟨rfl, by simp only [distSq, childA, childB]; norm_num, rfl, rfl, by decide,
   by simp only [childB]; norm_num,
   c5_bullying_requires_bully_first 1 childB childA rfl
     (by simp only [distSq, childA, childB]; norm_num) rfl rfl (by decide)
     (by simp only [childB]; norm_num)⟩

/-! ## C8 -/

lemma playPair_swap (dt : ℚ) (a b : Child) :
    playPair dt b a = ((playPair dt a b).2, (playPair dt a b).1) := by
  unfold playPair
  by_cases hp : (a.isPlaying && b.isPlaying) = true
  · have hp2 : (b.isPlaying && a.isPlaying) = true := by
      rw [Bool.and_comm]; exact hp
    rw [if_pos hp2, if_pos hp]
    by_cases hm : 7/10 < a.mood.mischief ∨ 7/10 < b.mood.mischief
    · rw [if_pos hm.symm, if_pos hm]
    · rw [if_neg (fun h => hm h.symm), if_neg hm]
  · have hp2 : ¬ (b.isPlaying && a.isPlaying) = true := by
      rw [Bool.and_comm]; exact hp
    rw [if_neg hp2, if_neg hp]

lemma playPair_fst_age (dt : ℚ) (a b : Child) : (playPair dt a b).1.age = a.age := by
  unfold playPair
  split
  · split <;> rfl
  · rfl

lemma playPair_snd_age (dt : ℚ) (a b : Child) : (playPair dt a b).2.age = b.age := by
  unfold playPair
  split
  · split <;> rfl
  · rfl

lemma playPair_fst_mischief_le (dt : ℚ) (a b : Child)
    (h : a.mood.mischief ≤ 7/10) : (playPair dt a b).1.mood.mischief ≤ 7/10 := by
  unfold playPair
  split
  · split
    · exact h
    · exact clamp01_le_of_le (by linarith) (by norm_num)
  · exact h

lemma playPair_snd_mischief_le (dt : ℚ) (a b : Child)
    (h : b.mood.mischief ≤ 7/10) : (playPair dt a b).2.mood.mischief ≤ 7/10 := by
  unfold playPair
  split
  · split
    · exact h
    · exact clamp01_le_of_le (by linarith) (by norm_num)
  · exact h

lemma bullyPair_id_of_not_guard (dt : ℚ) (a b : Child) (h : ¬ bullyGuard a b) :
    bullyPair dt a b = (a, b) := by
  unfold bullyGuard at h
  unfold bullyPair
  rw [if_neg h]

/-- C8 counterexample: the same two agents produce different final
emotional states depending on their order in the driver's list.  With
`[childA, childB]` the pass is a no-op; with `[childB, childA]` the agent
`kid_a` loses comfort (0.8 → 0.77) and trust (0.5 → 0.49) because the
bullying rule only tests the pair member at the smaller index. -/
theorem c8_order_dependence_counterexample :
    (interactionUpdate 1 [childA, childB]).get? 0 = some childA ∧
    (interactionUpdate 1 [childB, childA]).get? 1 =
      some { childA with mood := { childA.mood with trust := 49/100, comfort := 77/100 } } := by
  constructor
  · simp only [interactionUpdate, interactionGo, stepHead, pairStep, playPair,
      bullyPair, distSq, childA, childB, List.length_cons, List.length_nil]
    norm_num
  · simp only [interactionUpdate, interactionGo, stepHead, pairStep, playPair,
      bullyPair, bullyDeltas, moodApply, clamp, distSq, childA, childB,
      List.length_cons, List.length_nil]
    norm_num
    rw [if_neg (by decide : ¬ AgeGroup.toddler = AgeGroup.child)]

/-- C8 amended: a single pair's mutual effects are symmetric whenever the
bullying guard holds in neither direction — swapping the two members of
the pair swaps the results — but (per the counterexample) the pass as a
whole is not ordering-independent, because deltas are applied in place
during the scan and the bullying guard is position-dependent. -/
theorem c8_pair_swap_no_bully (dt : ℚ) (a b : Child)
    (h1 : ¬ bullyGuard a b) (h2 : ¬ bullyGuard b a) :
    pairStep dt a b = ((pairStep dt b a).2, (pairStep dt b a).1) := by
  unfold pairStep
  rw [distSq_comm a.pos b.pos]
  by_cases hroom : a.currentRoom = b.currentRoom
  · rw [hroom]
    simp only [if_neg (fun hh : b.currentRoom ≠ b.currentRoom => hh rfl)]
    by_cases hdist : 9 < distSq b.pos a.pos
    · simp only [if_pos hdist]
    · simp only [if_neg hdist]
      show bullyPair dt (playPair dt a b).1 (playPair dt a b).2 =
        ((bullyPair dt (playPair dt b a).1 (playPair dt b a).2).2,
         (bullyPair dt (playPair dt b a).1 (playPair dt b a).2).1)
      have g1 : ¬ bullyGuard (playPair dt a b).1 (playPair dt a b).2 := by
        intro hg
        obtain ⟨hga, hgb, hgm⟩ := hg
        rw [playPair_fst_age] at hga
        rw [playPair_snd_age] at hgb
        have hm : a.mood.mischief ≤ 7/10 := by
          by_contra hmm
          push_neg at hmm
          exact h1 ⟨hga, hgb, hmm⟩
        exact absurd hgm (not_lt.mpr (playPair_fst_mischief_le dt a b hm))
      have g2 : ¬ bullyGuard (playPair dt a b).2 (playPair dt a b).1 := by
        intro hg
        obtain ⟨hga, hgb, hgm⟩ := hg
        rw [playPair_snd_age] at hga
        rw [playPair_fst_age] at hgb
        have hm : b.mood.mischief ≤ 7/10 := by
          by_contra hmm
          push_neg at hmm
          exact h2 ⟨hga, hgb, hmm⟩
        exact absurd hgm (not_lt.mpr (playPair_snd_mischief_le dt a b hm))
      rw [playPair_swap dt a b]
      rw [bullyPair_id_of_not_guard dt _ _ g1, bullyPair_id_of_not_guard dt _ _ g2]
  · simp only [if_pos (show a.currentRoom ≠ b.currentRoom from hroom),
      if_pos (show b.currentRoom ≠ a.currentRoom from fun hh => hroom hh.symm)]

/-- Witness for C8 amended: two co-located toddlers (no bullying guard in
either direction). -/
theorem c8_pair_swap_no_bully_witness :
    ¬ bullyGuard crier calm ∧ ¬ bullyGuard calm crier ∧
    pairStep 1 crier calm = ((pairStep 1 calm crier).2, (pairStep 1 calm crier).1) :=
  ⟨fun h => by simpa [crier] using h.1,
   fun h => by simpa [calm] using h.1,
   c8_pair_swap_no_bully 1 crier calm
     (fun h => by simpa [crier] using h.1)
     (fun h => by simpa [calm] using h.1)⟩

/-! ## C6 -/

lemma hasUrgentNeed_false (v : MoodValues) (t : ℚ) (h : hasUrgentNeed v t = false) :
    v.hunger ≤ t ∧ v.boredom ≤ t ∧ v.fatigue ≤ t ∧ 1 - t ≤ v.comfort ∧ v.mischief ≤ t := by
  unfold hasUrgentNeed at h
  simp only [Bool.or_eq_false_iff, decide_eq_false_iff_not, not_lt] at h
  exact ⟨h.1.1.1.1, h.1.1.1.2, h.1.1.2, h.1.2, h.2⟩

lemma transitionTarget_content_none (m : MoodValues) (t : ℚ)
    (h7 : hasUrgentNeed m (7/10) = false) :
    transitionTarget ChildState.content m t = none := by
  obtain ⟨_, _, hf, _, _⟩ := hasUrgentNeed_false m _ h7
  show (if 9/10 < m.fatigue then some ChildState.sleeping
    else if hasUrgentNeed m (7/10) then some ChildState.needy else none) = none
  rw [if_neg (by linarith : ¬ (9:ℚ)/10 < m.fatigue), if_neg (by simp [h7])]

lemma transitionTarget_needy_none (m : MoodValues) (t : ℚ)
    (h5 : hasUrgentNeed m (1/2) = true) (h7 : hasUrgentNeed m (7/10) = false)
    (htr : 2/10 ≤ m.trust) :
    transitionTarget ChildState.needy m t = none := by
  obtain ⟨hh, hb, hf, hc, hm⟩ := hasUrgentNeed_false m _ h7
  have hcrit : (isCritical m (85/100) || decide (m.trust < 2/10)) = false := by
    unfold isCritical
    simp only [Bool.or_eq_false_iff, decide_eq_false_iff_not, not_lt]
    refine ⟨⟨⟨by linarith, by linarith⟩, by linarith⟩, by linarith⟩
  show (if (isCritical m (85/100) || decide (m.trust < 2/10)) then some ChildState.upset
    else if !hasUrgentNeed m (1/2) then some ChildState.content else none) = none
  rw [if_neg (by simp [hcrit]),
    if_neg (by simp only [h5, Bool.not_true]; exact Bool.false_ne_true)]

lemma stateOnUpdate_current (st : AIState) (m : MoodValues) (p : Personality)
    (ctx : AIContext) (dt : ℚ) :
    (stateOnUpdate st m p ctx dt).1.current = st.current := by
  obtain ⟨cur, ca, t, sl, pl⟩ := st
  cases cur <;> simp only [stateOnUpdate] <;> first
    | rfl
    | (split <;> rfl)

lemma fsmStep_current_content (st : AIState) (m : MoodValues) (p : Personality)
    (ctx : AIContext) (dt : ℚ) (hcur : st.current = ChildState.content)
    (h7 : hasUrgentNeed m (7/10) = false) :
    (fsmStep st m p ctx dt).1.current = ChildState.content := by
  unfold fsmStep
  rw [hcur, transitionTarget_content_none m _ h7]
  show (stateOnUpdate st m p ctx dt).1.current = ChildState.content
  rw [stateOnUpdate_current]
  exact hcur

lemma fsmStep_current_needy (st : AIState) (m : MoodValues) (p : Personality)
    (ctx : AIContext) (dt : ℚ) (hcur : st.current = ChildState.needy)
    (h5 : hasUrgentNeed m (1/2) = true) (h7 : hasUrgentNeed m (7/10) = false)
    (htr : 2/10 ≤ m.trust) :
    (fsmStep st m p ctx dt).1.current = ChildState.needy := by
  unfold fsmStep
  rw [hcur, transitionTarget_needy_none m _ h5 h7 htr]
  show (stateOnUpdate st m p ctx dt).1.current = ChildState.needy
  rw [stateOnUpdate_current]
  exact hcur

/-- C6 counterexample: with boredom 0.6 the urgent-need metric is strictly
between the thresholds (`hasUrgentNeed(0.5)` true, `hasUrgentNeed(0.7)`
false), yet an agent in Needy with trust 0.1 does not stay in Needy — the
priority-2 guard `isCritical(0.85) || trust < 0.2` fires and it moves to
Upset on the next tick. -/
theorem c6_hysteresis_counterexample :
    hasUrgentNeed mC6 (1/2) = true ∧ hasUrgentNeed mC6 (7/10) = false ∧
    (fsmStep needySt mC6 pZero ctxNoTV 1).1.current = ChildState.upset := by
  refine ⟨?_, ?_, ?_⟩
  · simp only [hasUrgentNeed, mC6]; norm_num
  · simp only [hasUrgentNeed, mC6]; norm_num
  · simp only [fsmStep, transitionTarget, doTransition, isCritical, hasUrgentNeed,
      pickUpsetAction, needySt, mC6, pZero]
    norm_num

/-- C6 amended: hysteresis at the Content/Needy boundary holds as long as
trust also stays at or above 0.2: for every tick stream whose mood keeps
`hasUrgentNeed(0.5)` true, `hasUrgentNeed(0.7)` false and trust ≥ 0.2, an
agent currently in Content stays in Content and an agent currently in
Needy stays in Needy, for every number of ticks — so it never flaps.
(Without the trust bound, low trust legitimately escalates Needy to Upset,
as the counterexample shows.) -/
theorem c6_hysteresis (ticks : ℕ → AITick)
    (h : ∀ n, hasUrgentNeed (ticks n).mood (1/2) = true ∧
              hasUrgentNeed (ticks n).mood (7/10) = false ∧
              2/10 ≤ (ticks n).mood.trust)
    (st : AIState)
    (hst : st.current = ChildState.content ∨ st.current = ChildState.needy)
    (n : ℕ) :
    (runAI st ticks n).current = st.current := by
  induction n with
  | zero => rfl
  | succ n ih =>
      show (fsmStep (runAI st ticks n) (ticks n).mood (ticks n).pers
        (ticks n).ctx (ticks n).dt).1.current = st.current
      obtain ⟨h5, h7, htr⟩ := h n
      rcases hst with hc | hc
      · rw [fsmStep_current_content _ _ _ _ _ (ih.trans hc) h7, hc]
      · rw [fsmStep_current_needy _ _ _ _ _ (ih.trans hc) h5 h7 htr, hc]

/-- Witness for C6 amended: three ticks of the in-band mood `mC6ok` keep a
Needy agent in Needy. -/
theorem c6_hysteresis_witness :
    (hasUrgentNeed mC6ok (1/2) = true ∧ hasUrgentNeed mC6ok (7/10) = false ∧
     2/10 ≤ mC6ok.trust) ∧
    needySt.current = ChildState.needy ∧
    (runAI needySt (fun _ => ⟨mC6ok, pZero, ctxNoTV, 1⟩) 3).current = needySt.current :=
  ⟨⟨by simp only [hasUrgentNeed, mC6ok]; norm_num,
    by simp only [hasUrgentNeed, mC6ok]; norm_num,
    by simp only [mC6ok]; norm_num⟩,
   rfl,
   c6_hysteresis (fun _ => ⟨mC6ok, pZero, ctxNoTV, 1⟩)
     (fun _ => ⟨by simp only [hasUrgentNeed, mC6ok]; norm_num,
       by simp only [hasUrgentNeed, mC6ok]; norm_num,
       by simp only [mC6ok]; norm_num⟩)
     needySt (Or.inr rfl) 3⟩

/-! ## C10 -/

lemma foldl_best_mem : ∀ (xs : List (String × ℚ)) (x : String × ℚ),
    xs.foldl (fun b c => if b.2 < c.2 then c else b) x ∈ x :: xs := by
  intro xs
  induction xs with
  | nil => intro x; exact List.mem_singleton.mpr rfl
  | cons y ys ih =>
      intro x
      rw [List.foldl_cons]
      have h := ih (if x.2 < y.2 then y else x)
      rcases List.mem_cons.mp h with h1 | h1
      · by_cases hxy : x.2 < y.2
        · rw [if_pos hxy] at h1 ⊢
          rw [h1]
          exact List.mem_cons.mpr (Or.inr (List.mem_cons_self y ys))
        · rw [if_neg hxy] at h1 ⊢
          rw [h1]
          exact List.mem_cons_self x (y :: ys)
      · exact List.mem_cons.mpr (Or.inr (List.mem_cons.mpr (Or.inr h1)))

lemma bestOf_mem (l : List (String × ℚ)) (d : String) :
    bestOf l d = d ∨ bestOf l d ∈ l.map Prod.fst := by
  cases l with
  | nil => exact Or.inl rfl
  | cons x xs =>
      right
      unfold bestOf
      exact List.mem_map.mpr ⟨_, foldl_best_mem xs x, rfl⟩

lemma bestOf_ne (l : List (String × ℚ)) (d s : String) (hd : d ≠ s)
    (hl : s ∉ l.map Prod.fst) : bestOf l d ≠ s := by
  intro he
  rcases bestOf_mem l d with h | h
  · exact hd (h.symm.trans he)
  · rw [he] at h
    exact hl h

lemma pickContentAction_ne (m : MoodValues) (p : Personality) (ctx : AIContext) :
    pickContentAction m p ctx ≠ "contagious_crying" := by
  unfold pickContentAction
  cases hns : ctx.nearestSibling
  · simp only [Bool.false_eq_true, if_false]
    refine bestOf_ne _ _ _ (by decide) ?_
    simp only [List.map_cons, List.map_nil]
    decide
  · simp only [if_true]
    refine bestOf_ne _ _ _ (by decide) ?_
    simp only [List.map_append, List.map_cons, List.map_nil]
    decide

lemma pickNeedyAction_ne (m : MoodValues) :
    pickNeedyAction m ≠ "contagious_crying" := by
  unfold pickNeedyAction
  split <;> decide

lemma pickUpsetAction_ne (m : MoodValues) (p : Personality) :
    pickUpsetAction m p ≠ "contagious_crying" := by
  unfold pickUpsetAction
  split_ifs <;> decide

lemma pickTantrumAction_ne (p : Personality) :
    pickTantrumAction p ≠ "contagious_crying" := by
  unfold pickTantrumAction
  split_ifs <;> decide

lemma exitAdjust_action (st : AIState) :
    (exitAdjust st).currentAction = st.currentAction := by
  unfold exitAdjust
  split <;> rfl

lemma doTransition_good (st : AIState) (tgt : ChildState) (m : MoodValues)
    (p : Personality) (ctx : AIContext) (hst : GoodAction st) :
    GoodAction (doTransition st tgt m p ctx).1 := by
  unfold GoodAction at *
  cases tgt
  · show (exitAdjust st).currentAction ≠ _
    rw [exitAdjust_action]
    exact hst
  · exact pickContentAction_ne m p ctx
  · exact pickNeedyAction_ne m
  · exact pickUpsetAction_ne m p
  · exact pickTantrumAction_ne p

lemma doTransition_no_cry (st : AIState) (tgt : ChildState) (m : MoodValues)
    (p : Personality) (ctx : AIContext) :
    Ev.contagiousCry ∉ (doTransition st tgt m p ctx).2 := by
  cases tgt <;> simp [doTransition]

lemma stateOnUpdate_good (st : AIState) (m : MoodValues) (p : Personality)
    (ctx : AIContext) (dt : ℚ) (hst : GoodAction st) :
    GoodAction (stateOnUpdate st m p ctx dt).1 := by
  obtain ⟨cur, ca, t, sl, pl⟩ := st
  unfold GoodAction at *
  cases cur
  · exact hst
  · show (if 10 < t + dt then _ else _ : AIState × List Ev).1.currentAction ≠ _
    split
    · exact pickContentAction_ne m p ctx
    · exact hst
  · show (if 15 < t + dt then _ else _ : AIState × List Ev).1.currentAction ≠ _
    split
    · exact pickNeedyAction_ne m
    · exact hst
  · exact hst
  · exact hst

lemma stateOnUpdate_no_cry (st : AIState) (m : MoodValues) (p : Personality)
    (ctx : AIContext) (dt : ℚ) (hst : GoodAction st) :
    Ev.contagiousCry ∉ (stateOnUpdate st m p ctx dt).2 := by
  obtain ⟨cur, ca, t, sl, pl⟩ := st
  cases cur
  · simp [stateOnUpdate]
  · show Ev.contagiousCry ∉ (if 10 < t + dt then _ else _ : AIState × List Ev).2
    split <;> simp
  · show Ev.contagiousCry ∉ (if 15 < t + dt then _ else _ : AIState × List Ev).2
    split <;> simp
  · simp [stateOnUpdate]
  · show Ev.contagiousCry ∉ [Ev.tantrumTick] ++
      (if ca = "contagious_crying" then [Ev.contagiousCry] else [])
    rw [if_neg hst]
    simp

lemma fsmStep_good (st : AIState) (m : MoodValues) (p : Personality)
    (ctx : AIContext) (dt : ℚ) (hst : GoodAction st) :
    GoodAction (fsmStep st m p ctx dt).1 ∧
    Ev.contagiousCry ∉ (fsmStep st m p ctx dt).2 := by
  unfold fsmStep
  rcases htt : transitionTarget st.current m st.actionTimer with _ | tgt
  · exact ⟨stateOnUpdate_good st m p ctx dt hst, stateOnUpdate_no_cry st m p ctx dt hst⟩
  · exact ⟨doTransition_good st tgt m p ctx hst, doTransition_no_cry st tgt m p ctx⟩

lemma initAI_good (m : MoodValues) (p : Personality) :
    GoodAction (initAI m p).1 ∧ Ev.contagiousCry ∉ (initAI m p).2 := by
  unfold initAI
  split
  · refine ⟨?_, ?_⟩
    · show ("sit_idle" : String) ≠ "contagious_crying"
      decide
    · show Ev.contagiousCry ∉ [Ev.stateChange "sleeping"]
      decide
  · refine ⟨?_, ?_⟩
    · show pickContentAction m p ⟨0, false, false⟩ ≠ "contagious_crying"
      exact pickContentAction_ne m p _
    · show Ev.contagiousCry ∉
        [Ev.stateChange "content", Ev.actionEv (pickContentAction m p ⟨0, false, false⟩)]
      simp

lemma runAI_good (st : AIState) (ticks : ℕ → AITick) (hst : GoodAction st) :
    ∀ n, GoodAction (runAI st ticks n)
  | 0 => hst
  | n + 1 => (fsmStep_good _ _ _ _ _ (runAI_good st ticks hst n)).1

/-- C10: the Tantrum selector only ever assigns Throwing, FloorTantrum or
Screaming, and along every execution of the ChildAI machine — any initial
mood and personality, any tick stream — the contagious-cry signal is never
emitted, neither by the constructor nor by any tick, because no selector
ever assigns the `contagious_crying` action that gates the emission. -/
theorem c10_contagious_cry_never_emitted (m : MoodValues) (p : Personality)
    (ticks : ℕ → AITick) (n : ℕ) :
    pickTantrumAction p ∈ ["throwing", "floor_tantrum", "screaming"] ∧
    Ev.contagiousCry ∉ (initAI m p).2 ∧
    Ev.contagiousCry ∉ runAIEvents (initAI m p).1 ticks n := by
  refine ⟨?_, (initAI_good m p).2, ?_⟩
  · unfold pickTantrumAction
    split_ifs <;> simp
  · unfold runAIEvents
    exact (fsmStep_good _ _ _ _ _ (runAI_good (initAI m p).1 ticks (initAI_good m p).1 n)).2

/-! ## C7 -/

lemma iterate_clampAdd (a : ℚ) (ha : 0 ≤ a) :
    ∀ (n : ℕ) (x : ℚ), 0 ≤ x → x ≤ 1 →
      (fun y => clamp (y + a) 0 1)^[n] x = clamp (x + n * a) 0 1 := by
  intro n
  induction n with
  | zero =>
      intro x h0 h1
      simp only [Function.iterate_zero, id_eq, Nat.cast_zero, zero_mul, add_zero]
      exact (clamp01_of_mem h0 h1).symm
  | succ n ih =>
      intro x h0 h1
      rw [Function.iterate_succ_apply]
      have hc := clamp01_inRange (x + a)
      rw [ih _ hc.1 hc.2]
      have hna : 0 ≤ (n : ℚ) * a := mul_nonneg (Nat.cast_nonneg n) ha
      rcases le_or_lt (x + a) 1 with h | h
      · rw [clamp01_of_mem (by linarith) h]
        congr 1
        push_cast
        ring
      · rw [clamp01_of_ge h.le]
        have h1' : (1:ℚ) ≤ 1 + n * a := le_add_of_nonneg_right hna
        have hge : (1:ℚ) ≤ x + ((n : ℕ) + 1 : ℕ) * a := by push_cast; linarith
        rw [clamp01_of_ge h1', clamp01_of_ge hge]

lemma iterate_clampSub (a : ℚ) (ha : 0 ≤ a) :
    ∀ (n : ℕ) (x : ℚ), 0 ≤ x → x ≤ 1 →
      (fun y => clamp (y - a) 0 1)^[n] x = clamp (x - n * a) 0 1 := by
  intro n
  induction n with
  | zero =>
      intro x h0 h1
      simp only [Function.iterate_zero, id_eq, Nat.cast_zero, zero_mul, sub_zero]
      exact (clamp01_of_mem h0 h1).symm
  | succ n ih =>
      intro x h0 h1
      rw [Function.iterate_succ_apply]
      have hc := clamp01_inRange (x - a)
      rw [ih _ hc.1 hc.2]
      have hna : 0 ≤ (n : ℚ) * a := mul_nonneg (Nat.cast_nonneg n) ha
      rcases le_or_lt 0 (x - a) with h | h
      · rw [clamp01_of_mem h (by linarith)]
        congr 1
        push_cast
        ring
      · rw [clamp01_of_le h.le]
        have hle : x - ((n : ℕ) + 1 : ℕ) * a ≤ 0 := by push_cast; linarith
        rw [clamp01_of_le (by linarith : (0:ℚ) - ↑n * a ≤ 0), clamp01_of_le hle]

lemma iterate_moodUpdate_hunger (r : MoodDecayRates) (dt : ℚ) (s p h : Bool) :
    ∀ (n : ℕ) (v : MoodValues),
      ((fun w => moodUpdate w r dt s p h)^[n] v).hunger =
      (fun x => hungerStep r dt s x)^[n] v.hunger := by
  intro n
  induction n with
  | zero => intro v; rfl
  | succ n ih =>
      intro v
      rw [Function.iterate_succ_apply, Function.iterate_succ_apply]
      exact ih (moodUpdate v r dt s p h)

lemma iterate_moodUpdate_boredom (r : MoodDecayRates) (dt : ℚ) (s p h : Bool) :
    ∀ (n : ℕ) (v : MoodValues),
      ((fun w => moodUpdate w r dt s p h)^[n] v).boredom =
      (fun x => boredomStep r dt s p x)^[n] v.boredom := by
  intro n
  induction n with
  | zero => intro v; rfl
  | succ n ih =>
      intro v
      rw [Function.iterate_succ_apply, Function.iterate_succ_apply]
      exact ih (moodUpdate v r dt s p h)

lemma iterate_moodUpdate_fatigue (r : MoodDecayRates) (dt : ℚ) (s p h : Bool) :
    ∀ (n : ℕ) (v : MoodValues),
      ((fun w => moodUpdate w r dt s p h)^[n] v).fatigue =
      (fun x => fatigueStep r dt s x)^[n] v.fatigue := by
  intro n
  induction n with
  | zero => intro v; rfl
  | succ n ih =>
      intro v
      rw [Function.iterate_succ_apply, Function.iterate_succ_apply]
      exact ih (moodUpdate v r dt s p h)

lemma iterate_moodUpdate_trust (r : MoodDecayRates) (dt : ℚ) (s p h : Bool) :
    ∀ (n : ℕ) (v : MoodValues),
      ((fun w => moodUpdate w r dt s p h)^[n] v).trust =
      (fun x => trustStep r dt h x)^[n] v.trust := by
  intro n
  induction n with
  | zero => intro v; rfl
  | succ n ih =>
      intro v
      rw [Function.iterate_succ_apply, Function.iterate_succ_apply]
      exact ih (moodUpdate v r dt s p h)

lemma iterate_moodUpdate_comfort (r : MoodDecayRates) (dt : ℚ) (s p h : Bool) :
    ∀ (n : ℕ) (v : MoodValues),
      ((fun w => moodUpdate w r dt s p h)^[n] v).comfort =
      (fun x => comfortStep r dt x)^[n] v.comfort := by
  intro n
  induction n with
  | zero => intro v; rfl
  | succ n ih =>
      intro v
      rw [Function.iterate_succ_apply, Function.iterate_succ_apply]
      exact ih (moodUpdate v r dt s p h)

lemma hungerStep_ten (r : MoodDecayRates) (s : Bool) (x : ℚ)
    (h0 : 0 ≤ x) (h1 : x ≤ 1) (hg : 0 ≤ r.hungerGrowth) :
    (fun y => hungerStep r (1/10) s y)^[10] x = hungerStep r 1 s x := by
  cases s
  · show (fun y => clamp (y + r.hungerGrowth * (1/10)) 0 1)^[10] x =
      clamp (x + r.hungerGrowth * 1) 0 1
    rw [iterate_clampAdd _ (mul_nonneg hg (by norm_num)) 10 x h0 h1]
    congr 1
    push_cast
    ring
  · exact Function.iterate_fixed rfl 10

lemma boredomStep_ten (r : MoodDecayRates) (s p : Bool) (x : ℚ)
    (h0 : 0 ≤ x) (h1 : x ≤ 1) (hg : 0 ≤ r.boredomGrowth) :
    (fun y => boredomStep r (1/10) s p y)^[10] x = boredomStep r 1 s p x := by
  cases s
  · cases p
    · show (fun y => clamp (y + r.boredomGrowth * (1/10)) 0 1)^[10] x =
        clamp (x + r.boredomGrowth * 1) 0 1
      rw [iterate_clampAdd _ (mul_nonneg hg (by norm_num)) 10 x h0 h1]
      congr 1
      push_cast
      ring
    · show (fun y => clamp (y - r.boredomGrowth * 2 * (1/10)) 0 1)^[10] x =
        clamp (x - r.boredomGrowth * 2 * 1) 0 1
      rw [iterate_clampSub _ (mul_nonneg (mul_nonneg hg (by norm_num)) (by norm_num)) 10 x h0 h1]
      congr 1
      push_cast
      ring
  · show (fun y => clamp (y - (2/1000) * (1/10)) 0 1)^[10] x =
      clamp (x - (2/1000) * 1) 0 1
    rw [iterate_clampSub _ (by norm_num) 10 x h0 h1]
    congr 1
    push_cast
    ring

lemma fatigueStep_ten (r : MoodDecayRates) (s : Bool) (x : ℚ)
    (h0 : 0 ≤ x) (h1 : x ≤ 1) (hg : 0 ≤ r.fatigueGrowth) :
    (fun y => fatigueStep r (1/10) s y)^[10] x = fatigueStep r 1 s x := by
  cases s
  · show (fun y => clamp (y + r.fatigueGrowth * (1/10)) 0 1)^[10] x =
      clamp (x + r.fatigueGrowth * 1) 0 1
    rw [iterate_clampAdd _ (mul_nonneg hg (by norm_num)) 10 x h0 h1]
    congr 1
    push_cast
    ring
  · show (fun y => clamp (y - (1/100) * (1/10)) 0 1)^[10] x =
      clamp (x - (1/100) * 1) 0 1
    rw [iterate_clampSub _ (by norm_num) 10 x h0 h1]
    congr 1
    push_cast
    ring

lemma trustStep_ten (r : MoodDecayRates) (h : Bool) (x : ℚ)
    (h0 : 0 ≤ x) (h1 : x ≤ 1) (hg : 0 ≤ r.trustDecay) :
    (fun y => trustStep r (1/10) h y)^[10] x = trustStep r 1 h x := by
  cases h
  · show (fun y => clamp (y - r.trustDecay * (1/10)) 0 1)^[10] x =
      clamp (x - r.trustDecay * 1) 0 1
    rw [iterate_clampSub _ (mul_nonneg hg (by norm_num)) 10 x h0 h1]
    congr 1
    push_cast
    ring
  · exact Function.iterate_fixed rfl 10

lemma comfortStep_ten (r : MoodDecayRates) (x : ℚ)
    (h0 : 0 ≤ x) (h1 : x ≤ 1) (hg : 0 ≤ r.comfortDecay) :
    (fun y => comfortStep r (1/10) y)^[10] x = comfortStep r 1 x := by
  show (fun y => clamp (y - r.comfortDecay * (1/10)) 0 1)^[10] x =
    clamp (x - r.comfortDecay * 1) 0 1
  rw [iterate_clampSub _ (mul_nonneg hg (by norm_num)) 10 x h0 h1]
  congr 1
  push_cast
  ring

/-- C7 counterexample: with boredom 0.498 (awake, idle, default rates),
one 1.0s update sees boredom cross 0.5 within the step and grows mischief
to 0.102, while ten 0.1s updates shrink it for four sub-steps and grow it
for six, ending at 0.1008 — a 0.0012 discrepancy, far beyond the 1e-6
floating tolerance.  The five other scalars agree (see the amended
theorem); mischief alone is not tick-rate independent because its branch
re-reads the evolving boredom/fatigue. -/
theorem c7_mischief_counterexample :
    (moodUpdate mC7 DEFAULT_RATES 1 false false false).mischief = 51/500 ∧
    ((fun w => moodUpdate w DEFAULT_RATES (1/10) false false false)^[10] mC7).mischief =
      63/625 ∧
    ¬ |(51:ℚ)/500 - 63/625| ≤ 1/1000000 := by
  refine ⟨?_, ?_, ?_⟩
  · simp only [moodUpdate, hungerStep, boredomStep, fatigueStep, mischiefStep,
      trustStep, comfortStep, clamp, mC7, DEFAULT_RATES]
    norm_num
  ·
    have h1 : moodUpdate mC7 DEFAULT_RATES (1/10) false false false =
        (⟨2003/10000, 997/2000, 1501/5000, 9999/20000, 999/10000, 7999/10000⟩ : MoodValues) := by
      simp only [moodUpdate, hungerStep, boredomStep, fatigueStep, mischiefStep,
        trustStep, comfortStep, clamp, mC7, DEFAULT_RATES, MoodValues.mk.injEq]
      norm_num
    have h2 : moodUpdate (⟨2003/10000, 997/2000, 1501/5000, 9999/20000, 999/10000, 7999/10000⟩ : MoodValues) DEFAULT_RATES (1/10) false false false =
        (⟨1003/5000, 499/1000, 751/2500, 4999/10000, 499/5000, 3999/5000⟩ : MoodValues) := by
      simp only [moodUpdate, hungerStep, boredomStep, fatigueStep, mischiefStep,
        trustStep, comfortStep, clamp, mC7, DEFAULT_RATES, MoodValues.mk.injEq]
      norm_num
    have h3 : moodUpdate (⟨1003/5000, 499/1000, 751/2500, 4999/10000, 499/5000, 3999/5000⟩ : MoodValues) DEFAULT_RATES (1/10) false false false =
        (⟨2009/10000, 999/2000, 1503/5000, 9997/20000, 997/10000, 7997/10000⟩ : MoodValues) := by
      simp only [moodUpdate, hungerStep, boredomStep, fatigueStep, mischiefStep,
        trustStep, comfortStep, clamp, mC7, DEFAULT_RATES, MoodValues.mk.injEq]
      norm_num
    have h4 : moodUpdate (⟨2009/10000, 999/2000, 1503/5000, 9997/20000, 997/10000, 7997/10000⟩ : MoodValues) DEFAULT_RATES (1/10) false false false =
        (⟨503/2500, 1/2, 188/625, 2499/5000, 249/2500, 1999/2500⟩ : MoodValues) := by
      simp only [moodUpdate, hungerStep, boredomStep, fatigueStep, mischiefStep,
        trustStep, comfortStep, clamp, mC7, DEFAULT_RATES, MoodValues.mk.injEq]
      norm_num
    have h5 : moodUpdate (⟨503/2500, 1/2, 188/625, 2499/5000, 249/2500, 1999/2500⟩ : MoodValues) DEFAULT_RATES (1/10) false false false =
        (⟨403/2000, 1001/2000, 301/1000, 1999/4000, 499/5000, 1599/2000⟩ : MoodValues) := by
      simp only [moodUpdate, hungerStep, boredomStep, fatigueStep, mischiefStep,
        trustStep, comfortStep, clamp, mC7, DEFAULT_RATES, MoodValues.mk.injEq]
      norm_num
    have h6 : moodUpdate (⟨403/2000, 1001/2000, 301/1000, 1999/4000, 499/5000, 1599/2000⟩ : MoodValues) DEFAULT_RATES (1/10) false false false =
        (⟨1009/5000, 501/1000, 753/2500, 4997/10000, 1/10, 3997/5000⟩ : MoodValues) := by
      simp only [moodUpdate, hungerStep, boredomStep, fatigueStep, mischiefStep,
        trustStep, comfortStep, clamp, mC7, DEFAULT_RATES, MoodValues.mk.injEq]
      norm_num
    have h7 : moodUpdate (⟨1009/5000, 501/1000, 753/2500, 4997/10000, 1/10, 3997/5000⟩ : MoodValues) DEFAULT_RATES (1/10) false false false =
        (⟨2021/10000, 1003/2000, 1507/5000, 9993/20000, 501/5000, 7993/10000⟩ : MoodValues) := by
      simp only [moodUpdate, hungerStep, boredomStep, fatigueStep, mischiefStep,
        trustStep, comfortStep, clamp, mC7, DEFAULT_RATES, MoodValues.mk.injEq]
      norm_num
    have h8 : moodUpdate (⟨2021/10000, 1003/2000, 1507/5000, 9993/20000, 501/5000, 7993/10000⟩ : MoodValues) DEFAULT_RATES (1/10) false false false =
        (⟨253/1250, 251/500, 377/1250, 1249/2500, 251/2500, 999/1250⟩ : MoodValues) := by
      simp only [moodUpdate, hungerStep, boredomStep, fatigueStep, mischiefStep,
        trustStep, comfortStep, clamp, mC7, DEFAULT_RATES, MoodValues.mk.injEq]
      norm_num
    have h9 : moodUpdate (⟨253/1250, 251/500, 377/1250, 1249/2500, 251/2500, 999/1250⟩ : MoodValues) DEFAULT_RATES (1/10) false false false =
        (⟨2027/10000, 201/400, 1509/5000, 9991/20000, 503/5000, 7991/10000⟩ : MoodValues) := by
      simp only [moodUpdate, hungerStep, boredomStep, fatigueStep, mischiefStep,
        trustStep, comfortStep, clamp, mC7, DEFAULT_RATES, MoodValues.mk.injEq]
      norm_num
    have h10 : moodUpdate (⟨2027/10000, 201/400, 1509/5000, 9991/20000, 503/5000, 7991/10000⟩ : MoodValues) DEFAULT_RATES (1/10) false false false =
        (⟨203/1000, 503/1000, 151/500, 999/2000, 63/625, 799/1000⟩ : MoodValues) := by
      simp only [moodUpdate, hungerStep, boredomStep, fatigueStep, mischiefStep,
        trustStep, comfortStep, clamp, mC7, DEFAULT_RATES, MoodValues.mk.injEq]
      norm_num
    show (moodUpdate (moodUpdate (moodUpdate (moodUpdate (moodUpdate (moodUpdate (moodUpdate (moodUpdate (moodUpdate (moodUpdate mC7 DEFAULT_RATES (1/10) false false false) DEFAULT_RATES (1/10) false false false) DEFAULT_RATES (1/10) false false false) DEFAULT_RATES (1/10) false false false) DEFAULT_RATES (1/10) false false false) DEFAULT_RATES (1/10) false false false) DEFAULT_RATES (1/10) false false false) DEFAULT_RATES (1/10) false false false) DEFAULT_RATES (1/10) false false false) DEFAULT_RATES (1/10) false false false).mischief = 63/625
    rw [h1, h2, h3, h4, h5, h6, h7, h8, h9, h10]
  · rw [show (51:ℚ)/500 - 63/625 = 12/10000 by norm_num]
    rw [abs_of_nonneg (by norm_num : (0:ℚ) ≤ 12/10000)]
    norm_num

/-- C7 amended: tick-rate independence holds exactly for hunger, boredom,
fatigue, trust and comfort — for every in-range start state, non-negative
rates and fixed flags, ten 0.1s updates equal one 1.0s update on those
five scalars (all decay/growth is proportional to elapsed time and clamps
commute along a monotone trajectory).  Mischief is excluded: its
grow/shrink branch is re-evaluated on the updated boredom/fatigue each
call, so it disagrees when boredom crosses 0.5 (or fatigue 0.7) inside
the interval, as the counterexample shows. -/
theorem c7_tick_rate_independent_except_mischief (v : MoodValues)
    (r : MoodDecayRates) (s p h : Bool) (hv : v.InRange) (hr : r.Valid) :
    ((fun w => moodUpdate w r (1/10) s p h)^[10] v).hunger =
      (moodUpdate v r 1 s p h).hunger ∧
    ((fun w => moodUpdate w r (1/10) s p h)^[10] v).boredom =
      (moodUpdate v r 1 s p h).boredom ∧
    ((fun w => moodUpdate w r (1/10) s p h)^[10] v).fatigue =
      (moodUpdate v r 1 s p h).fatigue ∧
    ((fun w => moodUpdate w r (1/10) s p h)^[10] v).trust =
      (moodUpdate v r 1 s p h).trust ∧
    ((fun w => moodUpdate w r (1/10) s p h)^[10] v).comfort =
      (moodUpdate v r 1 s p h).comfort := by
  obtain ⟨⟨hh0, hh1⟩, ⟨hb0, hb1⟩, ⟨hf0, hf1⟩, ⟨ht0, ht1⟩, _, ⟨hc0, hc1⟩⟩ := hv
  obtain ⟨hr1, hr2, hr3, hr4, hr5, hr6⟩ := hr
  refine ⟨?_, ?_, ?_, ?_, ?_⟩
  · rw [iterate_moodUpdate_hunger]
    exact hungerStep_ten r s v.hunger hh0 hh1 hr1
  · rw [iterate_moodUpdate_boredom]
    exact boredomStep_ten r s p v.boredom hb0 hb1 hr2
  · rw [iterate_moodUpdate_fatigue]
    exact fatigueStep_ten r s v.fatigue hf0 hf1 hr3
  · rw [iterate_moodUpdate_trust]
    exact trustStep_ten r h v.trust ht0 ht1 hr4
  · rw [iterate_moodUpdate_comfort]
    exact comfortStep_ten r v.comfort hc0 hc1 hr6

/-- Witness for C7 amended at the constructor-default mood and rates. -/
theorem c7_tick_rate_independent_except_mischief_witness :
    defaultMood.InRange ∧ DEFAULT_RATES.Valid ∧
    (((fun w => moodUpdate w DEFAULT_RATES (1/10) false false false)^[10] defaultMood).hunger =
       (moodUpdate defaultMood DEFAULT_RATES 1 false false false).hunger ∧
     ((fun w => moodUpdate w DEFAULT_RATES (1/10) false false false)^[10] defaultMood).boredom =
       (moodUpdate defaultMood DEFAULT_RATES 1 false false false).boredom ∧
     ((fun w => moodUpdate w DEFAULT_RATES (1/10) false false false)^[10] defaultMood).fatigue =
       (moodUpdate defaultMood DEFAULT_RATES 1 false false false).fatigue ∧
     ((fun w => moodUpdate w DEFAULT_RATES (1/10) false false false)^[10] defaultMood).trust =
       (moodUpdate defaultMood DEFAULT_RATES 1 false false false).trust ∧
     ((fun w => moodUpdate w DEFAULT_RATES (1/10) false false false)^[10] defaultMood).comfort =
       (moodUpdate defaultMood DEFAULT_RATES 1 false false false).comfort) :=
  ⟨by simp only [defaultMood, MoodValues.InRange, inRange01]; norm_num,
   by simp only [DEFAULT_RATES, MoodDecayRates.Valid]; norm_num,
   c7_tick_rate_independent_except_mischief defaultMood DEFAULT_RATES false false false
     (by simp only [defaultMood, MoodValues.InRange, inRange01]; norm_num)
     (by simp only [DEFAULT_RATES, MoodDecayRates.Valid]; norm_num)⟩

end Game
